import Mathlib

/-!
Shallow embedding of `list_detector.py` (list detection for a document
translation pipeline): the `ListType` enum, the `ListItemInfo` record, the
four anchored marker patterns of `ListDetector.PATTERNS`, the fallback
bullet scan, `detect_list_item`, `_roman_to_int`, `_int_to_roman`,
`reconstruct_list_text`, and `ListGroup` with `is_continuation`.

Strings are modelled as `String` (lists of characters); the Python regexes
are compiled to explicit matching functions that follow the engine's
leftmost, priority-ordered, greedy-with-backtracking semantics, with `\d`
covering the full Unicode Nd digit set.  Machine `int` is modelled as `Int`
(Python integers are unbounded); the float `x_coord` is modelled at integral
positions, with Python's floor division `//` rendered as `Int.fdiv`, and for
the exception analysis the non-finite float coordinates (NaN, ±infinity) are
carried explicitly by `PyNum`.
-/

namespace BabelList

/-- Code points Python treats as whitespace (`str.isspace`, regex `\s` on
`str` patterns): ASCII whitespace, the information separators, NEL, NBSP and
the Unicode space separators. -/
def pySpaceCodes : List Nat :=
  [9, 10, 11, 12, 13, 28, 29, 30, 31, 32, 133, 160, 5760,
   8192, 8193, 8194, 8195, 8196, 8197, 8198, 8199, 8200, 8201, 8202,
   8232, 8233, 8239, 8287, 12288]

/-- Whitespace test used by `str.strip`, `str.lstrip` and the regex class `[\s]`. -/
def isPySpace (c : Char) : Bool := c.toNat ∈ pySpaceCodes

/-- Python `str.lstrip()`: drop the maximal run of leading whitespace. -/
def pyLStrip (s : List Char) : List Char := s.dropWhile isPySpace

/-- Python `str.rstrip()`: drop the maximal run of trailing whitespace. -/
def pyRStrip (s : List Char) : List Char := (s.reverse.dropWhile isPySpace).reverse

/-- Python `str.strip()`: drop leading and trailing whitespace. -/
def pyStrip (s : List Char) : List Char := pyLStrip (pyRStrip s)

/-- Zero code point of every contiguous block of ten Unicode decimal digits
(category Nd, Unicode 14.0): the character class Python's `\d` matches on
`str` patterns without `re.ASCII`.  Each block runs from its zero to its
nine, and the digit's value is its offset from the block's zero. -/
def ndZeroCodes : List Nat :=
  [48, 1632, 1776, 1984, 2406, 2534, 2662, 2790, 2918, 3046, 3174, 3302,
   3430, 3558, 3664, 3792, 3872, 4160, 4240, 6112, 6160, 6470, 6608, 6784,
   6800, 6992, 7088, 7232, 7248, 42528, 43216, 43264, 43472, 43504, 43600,
   44016, 65296, 66720, 68912, 69734, 69872, 69942, 70096, 70384, 70736,
   70864, 71248, 71360, 71472, 71904, 72016, 72784, 73040, 73120, 92768,
   92864, 93008, 120782, 120792, 120802, 120812, 120822, 123200, 123632,
   125264, 130032]

/-- The decimal value of a Unicode Nd digit, if the character is one. -/
def pyDigitVal (c : Char) : Option Nat :=
  (ndZeroCodes.find? (fun z => decide (z ≤ c.toNat) && decide (c.toNat < z + 10))).map
    (fun z => c.toNat - z)

/-- Digit test of the regex class `\d`: any Unicode decimal digit. -/
def isPyDigit (c : Char) : Bool := (pyDigitVal c).isSome

/-- Value of a nonempty decimal-digit string, as computed by Python `int`,
which accepts any Unicode Nd digits at their decimal values. -/
def digitsToNat (s : List Char) : Nat :=
  s.foldl (fun n c => 10 * n + (pyDigitVal c).getD 0) 0

/-- `ListType` enum from the source: kinds of list markers. -/
inductive ListType where
  | none
  | bullet
  | numbered
  | lettered
  | roman
deriving DecidableEq, Repr

/-- `ListItemInfo` dataclass: one detected list item. -/
structure ListItemInfo where
  item_type : ListType
  marker : String
  content : String
  level : Int := 0
  index : Int := 0
  is_continuation : Bool := false
deriving DecidableEq, Repr

namespace ListDetector

/-- `BULLET_CHARS` from the source.  The Python object is a `set`, whose
iteration order is unspecified; the embedding fixes the literal's order. -/
def BULLET_CHARS : List Char :=
  ['•', '●', '○', '■', '▪', '▫', '‣', '⁃', '⁌', '⁍', '⦾', '⦿', '-', '*', '+']

/-- Pattern `^[\s]*?([•\-*●○■▪▫‣⁃⁌⁍⦾⦿\+])\s+` (BULLET).  The lazy leading
`[\s]*?` can only cross whitespace, so a match exists exactly when the first
non-whitespace character is a bullet glyph followed by at least one
whitespace character.  Returns `(group 0, group 1, text after the match)`. -/
def matchBullet (s : List Char) : Option (List Char × List Char × List Char) :=
  let ws := s.takeWhile isPySpace
  let t := s.dropWhile isPySpace
  match t with
  | [] => Option.none
  | c :: t' =>
    if c ∈ BULLET_CHARS then
      let ws2 := t'.takeWhile isPySpace
      if ws2.isEmpty then Option.none
      else some (ws ++ [c] ++ ws2, [c], t'.drop ws2.length)
    else Option.none

/-- Pattern `^[\s]*?(\d+)[\.\)]\s+` (NUMBERED): leading whitespace, a maximal
nonempty run of Unicode decimal digits, `.` or `)`, then at least one
whitespace character. -/
def matchNumbered (s : List Char) : Option (List Char × List Char × List Char) :=
  let ws := s.takeWhile isPySpace
  let t := s.dropWhile isPySpace
  let ds := t.takeWhile isPyDigit
  let t1 := t.dropWhile isPyDigit
  if ds.isEmpty then Option.none
  else
    match t1 with
    | [] => Option.none
    | p :: t2 =>
      if p = '.' ∨ p = ')' then
        let ws2 := t2.takeWhile isPySpace
        if ws2.isEmpty then Option.none
        else some (ws ++ ds ++ [p] ++ ws2, ds, t2.drop ws2.length)
      else Option.none

/-- Pattern `^[\s]*?([a-zA-Z])[\.\)]\s+` (LETTERED): leading whitespace, one
ASCII letter of either case, `.` or `)`, then at least one whitespace
character. -/
def matchLettered (s : List Char) : Option (List Char × List Char × List Char) :=
  let ws := s.takeWhile isPySpace
  let t := s.dropWhile isPySpace
  match t with
  | [] => Option.none
  | c :: t1 =>
    if c.isAlpha then
      match t1 with
      | [] => Option.none
      | p :: t2 =>
        if p = '.' ∨ p = ')' then
          let ws2 := t2.takeWhile isPySpace
          if ws2.isEmpty then Option.none
          else some (ws ++ [c, p] ++ ws2, [c], t2.drop ws2.length)
        else Option.none
    else Option.none

/-- The seven Roman letters of the lookahead class `[MDCLXVI]`. -/
def romanLetters : List Char := ['M', 'D', 'C', 'L', 'X', 'V', 'I']

/-- Backtracking candidates for the greedy quantifier `M{0,4}`: the runs of
leading `M`s tried longest first, down to the empty match. -/
def mCands (t : List Char) : List (List Char) :=
  let m := min 4 (t.takeWhile (fun c => c = 'M')).length
  ((List.range (m + 1)).reverse).map (fun k => List.replicate k 'M')

/-- Backtracking candidates, in the order the regex engine tries them, for an
alternation of the shape `(CM|CD|D?C{0,3})` with `low = C`, `five = D`,
`ten = M` (and likewise for the tens and ones groups).  Every candidate is a
prefix of `t`. -/
def subCands (t : List Char) (low five ten : Char) : List (List Char) :=
  let a1 := if t.take 2 = [low, ten] then [[low, ten]] else []
  let a2 := if t.take 2 = [low, five] then [[low, five]] else []
  let withFive :=
    match t with
    | [] => []
    | c :: t' =>
      if c = five then
        let r := min 3 (t'.takeWhile (fun d => d = low)).length
        ((List.range (r + 1)).reverse).map (fun j => five :: List.replicate j low)
      else []
  let noFive :=
    let r := min 3 (t.takeWhile (fun d => d = low)).length
    ((List.range (r + 1)).reverse).map (fun j => List.replicate j low)
  a1 ++ a2 ++ withFive ++ noFive

/-- The tail `[\.\)]\s+` of every marker pattern: `.` or `)` then at least one
whitespace character; returns the consumed characters and the rest. -/
def punctTail (t : List Char) : Option (List Char × List Char) :=
  match t with
  | [] => Option.none
  | p :: t' =>
    if p = '.' ∨ p = ')' then
      let ws2 := t'.takeWhile isPySpace
      if ws2.isEmpty then Option.none else some (p :: ws2, t'.drop ws2.length)
    else Option.none

/-- Pattern
`^[\s]*?(?=[MDCLXVI])(M{0,4}(CM|CD|D?C{0,3})(XC|XL|L?X{0,3})(IX|IV|V?I{0,3}))[\.\)]\s+`
(ROMAN).  The lazy leading whitespace plus the lookahead pin the match to the
first non-whitespace character, which must be an uppercase Roman letter; the
four quantified groups are searched in the engine's backtracking order, the
innermost choice point varying fastest. -/
def matchRoman (s : List Char) : Option (List Char × List Char × List Char) :=
  let ws := s.takeWhile isPySpace
  let t := s.dropWhile isPySpace
  match t with
  | [] => Option.none
  | c :: _ =>
    if c ∈ romanLetters then
      (mCands t).findSome? (fun mq =>
        let t1 := t.drop mq.length
        (subCands t1 'C' 'D' 'M').findSome? (fun hq =>
          let t2 := t1.drop hq.length
          (subCands t2 'X' 'L' 'C').findSome? (fun tq =>
            let t3 := t2.drop tq.length
            (subCands t3 'I' 'V' 'X').findSome? (fun oq =>
              match punctTail (t3.drop oq.length) with
              | some (suf, rest) =>
                some (ws ++ mq ++ hq ++ tq ++ oq ++ suf, mq ++ hq ++ tq ++ oq, rest)
              | Option.none => Option.none))))
    else Option.none

/-- `_roman_to_int`: right-to-left scan of the uppercased numeral, adding each
symbol's value, or subtracting it when it is smaller than the value to its
right; unknown characters get value 0 (`dict.get(char, 0)`). -/
def romanVal (c : Char) : Nat :=
  if c = 'I' then 1 else if c = 'V' then 5 else if c = 'X' then 10
  else if c = 'L' then 50 else if c = 'C' then 100 else if c = 'D' then 500
  else if c = 'M' then 1000 else 0

def _roman_to_int (roman : String) : Int :=
  let step := fun (acc : Int × Nat) (c : Char) =>
    let v := romanVal c.toUpper
    (if (v : Int) < (acc.2 : Int) then acc.1 - v else acc.1 + v, v)
  ((roman.data.reverse.foldl step (0, 0)).1)

/-- The parallel `val`/`syb` tables of `_int_to_roman`. -/
def valSyb : List (Nat × String) :=
  [(1000, "M"), (900, "CM"), (500, "D"), (400, "CD"),
   (100, "C"), (90, "XC"), (50, "L"), (40, "XL"),
   (10, "X"), (9, "IX"), (5, "V"), (4, "IV"),
   (1, "I")]

/-- One pass of the `while num > 0` loop of `_int_to_roman`: at table entry
`(v, s)` the symbol `s` is appended `num // v` times and `num` is reduced to
`num % v`. -/
def intToRomanAux : List (Nat × String) → Nat → String
  | [], _ => ""
  | (v, s) :: rest, num =>
    String.join (List.replicate (num / v) s) ++ intToRomanAux rest (num % v)

/-- `_int_to_roman`: greedy subtractive encoding; a non-positive argument
never enters the loop and yields the empty string. -/
def _int_to_roman (num : Int) : String :=
  intToRomanAux valSyb num.toNat

/-- The indentation level computed by `detect_list_item`:
`int(x_coord // 40) if x_coord else 0`. -/
def levelOf (x_coord : Int) : Int :=
  if x_coord ≠ 0 then Int.fdiv x_coord 40 else 0

/-- Item built from an anchored-pattern match: `marker = group(0).strip()`,
`content = text[match.end():].strip()`, and the kind-specific index. -/
def mkAnchoredItem (lt : ListType) (g0 g1 rest : List Char) (level : Int) :
    ListItemInfo :=
  { item_type := lt
    marker := String.mk (pyStrip g0)
    content := String.mk (pyStrip rest)
    level := level
    index :=
      match lt with
      | ListType.numbered => (digitsToNat g1 : Int)
      | ListType.lettered =>
        match g1 with
        | c :: _ => (c.toLower.toNat : Int) - ('a'.toNat : Int) + 1
        | [] => 0
      | ListType.roman => _roman_to_int (String.mk (g1.map Char.toUpper))
      | _ => 0
    is_continuation := false }

/-- The `for list_type, pattern in cls.PATTERNS.items()` loop: the four
anchored patterns tried in insertion order BULLET, NUMBERED, LETTERED,
ROMAN; the first match wins. -/
def anchoredPass (s : List Char) (level : Int) : Option ListItemInfo :=
  match matchBullet s with
  | some (g0, g1, rest) => some (mkAnchoredItem ListType.bullet g0 g1 rest level)
  | Option.none =>
  match matchNumbered s with
  | some (g0, g1, rest) => some (mkAnchoredItem ListType.numbered g0 g1 rest level)
  | Option.none =>
  match matchLettered s with
  | some (g0, g1, rest) => some (mkAnchoredItem ListType.lettered g0 g1 rest level)
  | Option.none =>
  match matchRoman s with
  | some (g0, g1, rest) => some (mkAnchoredItem ListType.roman g0 g1 rest level)
  | Option.none => Option.none

/-- Item built by the fallback bullet scan at the first occurrence (position
`pos`) of the bullet glyph: `marker = text[:pos+1]` (not stripped),
`content = text[pos+1:].strip()`. -/
def mkFallbackItem (s : List Char) (pos : Nat) (level : Int) : ListItemInfo :=
  { item_type := ListType.bullet
    marker := String.mk (s.take (pos + 1))
    content := String.mk (pyStrip (s.drop (pos + 1)))
    level := level
    index := 0
    is_continuation := false }

/-- The fallback loop `for bullet in cls.BULLET_CHARS`: the first glyph found
in the 10-character window is located in the whole text with `text.find` and
the line is split there. -/
def scanBullets (s window : List Char) (level : Int) :
    List Char → Option ListItemInfo
  | [] => Option.none
  | b :: bs =>
    if b ∈ window then some (mkFallbackItem s (s.findIdx (fun c => c = b)) level)
    else scanBullets s window level bs

/-- `ListDetector.detect_list_item`: empty or whitespace-only text yields
nothing; otherwise the four anchored patterns are tried in order, and failing
those, the fallback scan over `text.lstrip()[:10]`. -/
def detect_list_item (text : String) (x_coord : Int := 0) : Option ListItemInfo :=
  let s := text.data
  if (pyStrip s).isEmpty then Option.none
  else
    let level := levelOf x_coord
    match anchoredPass s level with
    | some item => some item
    | Option.none =>
      let window := (s.dropWhile isPySpace).take 10
      scanBullets s window level BULLET_CHARS

/-- Python `'    ' * level`: a non-positive level yields the empty string. -/
def pyRepeat (u : String) (n : Int) : String :=
  String.join (List.replicate n.toNat u)

/-- `ListDetector.reconstruct_list_text`: re-emit a detected item with the
translated content, four spaces of indentation per level, and a marker
rebuilt from the kind and index.  `target_lang` is accepted and unused. -/
def reconstruct_list_text (list_info : ListItemInfo) (translated_content : String)
    (target_lang : String := "en") : String :=
  let indent := pyRepeat "    " list_info.level
  match list_info.item_type with
  | ListType.bullet => indent ++ "• " ++ translated_content
  | ListType.numbered => indent ++ toString list_info.index ++ ". " ++ translated_content
  | ListType.lettered =>
    let letter := Char.ofNat (('a'.toNat : Int) + list_info.index - 1).toNat
    indent ++ String.mk [letter] ++ ". " ++ translated_content
  | ListType.roman => indent ++ _int_to_roman list_info.index ++ ". " ++ translated_content
  | ListType.none => indent ++ translated_content

/-- Python `int(s)` on the digits captured by `(\d+)`: defined only for a
nonempty all-digit string, one of the two ways `detect_list_item` can raise
(`ValueError`) in principle. -/
def parsePyInt (s : List Char) : Except String Int :=
  if s ≠ [] ∧ s.all isPyDigit then Except.ok (digitsToNat s : Int)
  else Except.error "invalid literal for int() with base 10"

/-- The float values of `x_coord` the level computation distinguishes:
integral finite values, NaN and the two infinities.  Fractional finite
coordinates are not modelled (exact floating-point rounding is outside this
embedding); whether the level computation raises depends only on finiteness,
since `x // 40` is a finite integral float for every finite `x` and is NaN
for NaN and for both infinities. -/
inductive PyNum where
  | int (n : Int)
  | nan
  | inf
  | neginf
deriving DecidableEq, Repr

/-- `int(x_coord // 40) if x_coord else 0` on a float coordinate: NaN and the
infinities are truthy, their floor division by 40 is NaN, and `int(NaN)`
raises `ValueError`. -/
def levelOfE : PyNum → Except String Int
  | PyNum.int n => Except.ok (levelOf n)
  | PyNum.nan => Except.error "cannot convert float NaN to integer"
  | PyNum.inf => Except.error "cannot convert float NaN to integer"
  | PyNum.neginf => Except.error "cannot convert float NaN to integer"

/-- The anchored-pattern loop with the fallible `int(match.group(1))` made
explicit.  `_roman_to_int` uses a defaulted dictionary lookup and `ord` is
applied to the single matched letter, so the NUMBERED branch holds the only
operation of the loop that can raise. -/
def anchoredPassE (s : List Char) (level : Int) :
    Except String (Option ListItemInfo) :=
  match matchBullet s with
  | some (g0, g1, rest) =>
    Except.ok (some (mkAnchoredItem ListType.bullet g0 g1 rest level))
  | Option.none =>
  match matchNumbered s with
  | some (g0, g1, rest) =>
    (parsePyInt g1).map (fun idx =>
      some { item_type := ListType.numbered
             marker := String.mk (pyStrip g0)
             content := String.mk (pyStrip rest)
             level := level
             index := idx
             is_continuation := false })
  | Option.none =>
  match matchLettered s with
  | some (g0, g1, rest) =>
    Except.ok (some (mkAnchoredItem ListType.lettered g0 g1 rest level))
  | Option.none =>
  match matchRoman s with
  | some (g0, g1, rest) =>
    Except.ok (some (mkAnchoredItem ListType.roman g0 g1 rest level))
  | Option.none => Except.ok Option.none

/-- `detect_list_item` with its fallible operations threaded through an error
channel: the level computation on the float coordinate (reached only after
the blank-text early return) and `int` on the captured digits.  An
`Except.error` outcome corresponds to a Python exception escaping the
function. -/
def detectF (text : String) (x_coord : PyNum) :
    Except String (Option ListItemInfo) :=
  let s := text.data
  if (pyStrip s).isEmpty then Except.ok Option.none
  else
    match levelOfE x_coord with
    | Except.error e => Except.error e
    | Except.ok level =>
      match anchoredPassE s level with
      | Except.error e => Except.error e
      | Except.ok (some item) => Except.ok (some item)
      | Except.ok Option.none =>
        let window := (s.dropWhile isPySpace).take 10
        Except.ok (scanBullets s window level BULLET_CHARS)

end ListDetector

/-- `ListGroup` dataclass: a run of consecutive items sharing kind and level. -/
structure ListGroup where
  items : List ListItemInfo
  list_type : ListType
  level : Int
deriving DecidableEq, Repr

/-- `ListGroup.add_item`: append, no validation. -/
def ListGroup.add_item (g : ListGroup) (item : ListItemInfo) : ListGroup :=
  { g with items := g.items ++ [item] }

/-- `ListGroup.is_continuation`: the item continues the group exactly when its
kind and level both match the group's. -/
def ListGroup.is_continuation (g : ListGroup) (item : ListItemInfo) : Bool :=
  decide (item.item_type = g.list_type) && decide (item.level = g.level)

end BabelList

namespace BabelList

/-! Helper lemmas shared by the claim theorems. -/

theorem head?_dropWhile_false (p : Char → Bool) (l : List Char) (a : Char)
    (h : (l.dropWhile p).head? = some a) : p a = false := by
  induction l with
  | nil => simp [List.dropWhile] at h
  | cons x xs ih =>
    simp only [List.dropWhile_cons] at h
    split at h
    · exact ih h
    · rename_i hpx
      simp only [List.head?_cons, Option.some.injEq] at h
      subst h
      simpa using hpx

theorem getLast?_dropWhile_eq (p : Char → Bool) (l : List Char) (a : Char)
    (h : (l.dropWhile p).getLast? = some a) : l.getLast? = some a := by
  induction l with
  | nil => simp [List.dropWhile] at h
  | cons x xs ih =>
    simp only [List.dropWhile_cons] at h
    split at h
    · have h2 := ih h
      cases xs with
      | nil => simp at h2
      | cons y ys =>
        rw [List.getLast?_cons_cons]
        exact h2
    · exact h

theorem pyStrip_head_all (l : List Char) :
    (pyStrip l).head?.all (fun c => !isPySpace c) = true := by
  cases h : (pyStrip l).head? with
  | none => rfl
  | some a =>
    have hf : isPySpace a = false := head?_dropWhile_false isPySpace (pyRStrip l) a h
    simp [Option.all, hf]

theorem pyStrip_getLast_all (l : List Char) :
    (pyStrip l).getLast?.all (fun c => !isPySpace c) = true := by
  cases h : (pyStrip l).getLast? with
  | none => rfl
  | some a =>
    have h2 : (pyRStrip l).getLast? = some a :=
      getLast?_dropWhile_eq isPySpace (pyRStrip l) a h
    have h3 : (l.reverse.dropWhile isPySpace).reverse.getLast? = some a := h2
    rw [List.getLast?_reverse] at h3
    have h4 : isPySpace a = false := by
      cases hd : (l.reverse.dropWhile isPySpace).head? with
      | none => rw [hd] at h3; cases h3
      | some b =>
        rw [hd] at h3
        cases h3
        exact head?_dropWhile_false isPySpace l.reverse a hd
    simp [Option.all, h4]

theorem all_takeWhile_self (p : Char → Bool) (l : List Char) :
    (l.takeWhile p).all p = true := by
  induction l with
  | nil => rfl
  | cons x xs ih =>
    simp only [List.takeWhile]
    split
    · simp only [List.all_cons, ih, Bool.and_true]
      assumption
    · rfl

theorem levelOf_eq (x : Int) : ListDetector.levelOf x = Int.fdiv x 40 := by
  unfold ListDetector.levelOf
  split
  · rfl
  · rename_i hx
    rw [not_not] at hx
    subst hx
    exact (Int.zero_fdiv 40).symm

theorem anchoredPass_level (s : List Char) (L : Int) (item : ListItemInfo)
    (h : ListDetector.anchoredPass s L = some item) : item.level = L := by
  unfold ListDetector.anchoredPass at h
  repeat' split at h
  all_goals first
    | (cases h; rfl)
    | exact absurd h (by simp)

theorem anchoredPass_marker_stripped (s : List Char) (L : Int) (item : ListItemInfo)
    (h : ListDetector.anchoredPass s L = some item) :
    item.marker.data.head?.all (fun c => !isPySpace c) = true ∧
    item.marker.data.getLast?.all (fun c => !isPySpace c) = true := by
  unfold ListDetector.anchoredPass at h
  repeat' split at h
  all_goals first
    | (cases h; exact ⟨pyStrip_head_all _, pyStrip_getLast_all _⟩)
    | exact absurd h (by simp)

theorem scanBullets_level (s w : List Char) (L : Int) (bs : List Char)
    (item : ListItemInfo)
    (h : ListDetector.scanBullets s w L bs = some item) : item.level = L := by
  induction bs with
  | nil => simp [ListDetector.scanBullets] at h
  | cons b rest ih =>
    simp only [ListDetector.scanBullets] at h
    split at h
    · cases h; rfl
    · exact ih h

theorem scanBullets_none (s w : List Char) (L : Int) (bs : List Char)
    (h : ∀ b ∈ bs, ¬ b ∈ w) :
    ListDetector.scanBullets s w L bs = Option.none := by
  induction bs with
  | nil => rfl
  | cons b rest ih =>
    simp only [ListDetector.scanBullets]
    rw [if_neg (h b (List.mem_cons_self b rest))]
    exact ih (fun c hc => h c (List.mem_cons_of_mem b hc))

theorem detect_level_eq (text : String) (x : Int) (item : ListItemInfo)
    (h : ListDetector.detect_list_item text x = some item) :
    item.level = Int.fdiv x 40 := by
  simp only [ListDetector.detect_list_item] at h
  split at h
  · exact absurd h (by simp)
  · split at h
    · rename_i item0 heq
      cases h
      exact (anchoredPass_level _ _ _ heq).trans (levelOf_eq x)
    · exact (scanBullets_level _ _ _ _ _ h).trans (levelOf_eq x)

theorem matchNumbered_digits (s g0 g1 rest : List Char)
    (h : ListDetector.matchNumbered s = some (g0, g1, rest)) :
    g1 ≠ [] ∧ g1.all isPyDigit = true := by
  simp only [ListDetector.matchNumbered] at h
  split at h
  · exact absurd h (by simp)
  · rename_i hne
    split at h
    · exact absurd h (by simp)
    · split at h
      · split at h
        · exact absurd h (by simp)
        · simp only [Option.some.injEq, Prod.mk.injEq] at h
          obtain ⟨-, h1, -⟩ := h
          subst h1
          refine ⟨?_, all_takeWhile_self _ _⟩
          intro hnil
          rw [hnil] at hne
          exact hne rfl
      · exact absurd h (by simp)

theorem anchoredPassE_eq (s : List Char) (L : Int) :
    ListDetector.anchoredPassE s L = Except.ok (ListDetector.anchoredPass s L) := by
  unfold ListDetector.anchoredPassE ListDetector.anchoredPass
  cases hb : ListDetector.matchBullet s with
  | some r => obtain ⟨g0, g1, rest⟩ := r; rfl
  | none =>
    cases hn : ListDetector.matchNumbered s with
    | some r =>
      obtain ⟨g0, g1, rest⟩ := r
      obtain ⟨hne, hall⟩ := matchNumbered_digits s g0 g1 rest hn
      simp only [ListDetector.parsePyInt, if_pos (And.intro hne hall)]
      simp [Except.map, ListDetector.mkAnchoredItem]
    | none =>
      cases hl : ListDetector.matchLettered s with
      | some r => obtain ⟨g0, g1, rest⟩ := r; rfl
      | none =>
        cases hr : ListDetector.matchRoman s with
        | some r => obtain ⟨g0, g1, rest⟩ := r; rfl
        | none => rfl

/-! The claim theorems. -/

/-- Claim C1: for the item returned by `detect_list_item "2. Example" 0`,
reconstruction with translated content "Example translated" (default target
language) yields exactly "2. Example translated". -/
theorem claim_C1_detect_reconstruct_round_trip :
    (ListDetector.detect_list_item "2. Example" 0).map
        (fun item => ListDetector.reconstruct_list_text item "Example translated") =
      some "2. Example translated" := by decide

/-- Claim C3, counterexample: the ROMAN pattern is compiled without
`re.IGNORECASE`, so `detect_list_item "iv. Fourth clause"` finds no anchored
match (LETTERED needs a single letter before the punctuation) and no bullet
glyph in the fallback window: it returns nothing, not a ROMAN item. -/
theorem claim_C3_counterexample :
    ListDetector.detect_list_item "iv. Fourth clause" 0 = Option.none := by decide

/-- Claim C3 (amended): marker-letter matching is case-insensitive for
LETTERED markers only; the ROMAN pattern requires uppercase numerals.
`detect_list_item "IV. Fourth clause"` yields kind ROMAN, index 4, content
"Fourth clause", while "b)" and "B)" both yield LETTERED with index 2. -/
theorem claim_C3_uppercase_roman :
    ListDetector.detect_list_item "IV. Fourth clause" 0 =
      some ⟨ListType.roman, "IV.", "Fourth clause", 0, 4, false⟩ ∧
    ListDetector.detect_list_item "b) Second option" 0 =
      some ⟨ListType.lettered, "b)", "Second option", 0, 2, false⟩ ∧
    ListDetector.detect_list_item "B) Second option" 0 =
      some ⟨ListType.lettered, "B)", "Second option", 0, 2, false⟩ := by decide

/-- Claim C4: `detect_list_item` returns nothing on every empty or
whitespace-only string, and on every string whose start matches none of the
four anchored marker patterns and whose first 10 characters after stripping
leading whitespace contain no bullet glyph. -/
theorem claim_C4_absent (text : String) (x : Int)
    (h : pyStrip text.data = [] ∨
      (ListDetector.matchBullet text.data = Option.none ∧
       ListDetector.matchNumbered text.data = Option.none ∧
       ListDetector.matchLettered text.data = Option.none ∧
       ListDetector.matchRoman text.data = Option.none ∧
       ∀ b ∈ ListDetector.BULLET_CHARS,
         ¬ b ∈ (text.data.dropWhile isPySpace).take 10)) :
    ListDetector.detect_list_item text x = Option.none := by
  rcases h with h | ⟨hB, hN, hL, hR, hw⟩
  · simp [ListDetector.detect_list_item, h]
  · simp only [ListDetector.detect_list_item]
    by_cases hc : (pyStrip text.data).isEmpty = true
    · simp [hc]
    · rw [if_neg hc]
      have ha : ListDetector.anchoredPass text.data (ListDetector.levelOf x) =
          Option.none := by
        unfold ListDetector.anchoredPass
        rw [hB, hN, hL, hR]
      rw [ha]
      exact scanBullets_none _ _ _ _ hw

theorem claim_C4_absent_witness :
    ListDetector.detect_list_item "hello world" 7 = Option.none :=
  claim_C4_absent "hello world" 7 (Or.inr (by decide))

/-- Claim C5, counterexample: an item produced by the fallback bullet scan
keeps `text[:pos+1]` as its marker, untrimmed — on " •x" (anchored BULLET
fails for lack of whitespace after the glyph) the marker is " •", which
starts with a whitespace character. -/
theorem claim_C5_counterexample :
    (ListDetector.detect_list_item " •x" 0).map ListItemInfo.marker = some " •" ∧
    pyStrip (" •" : String).data ≠ (" •" : String).data := by decide

/-- Claim C5 (amended): items produced by the four anchored marker patterns
carry a marker trimmed of surrounding whitespace (`match.group(0).strip()`);
items from the fallback bullet scan may keep leading whitespace or stray
characters before the glyph. -/
theorem claim_C5_anchored_marker_trimmed (s : List Char) (level : Int)
    (item : ListItemInfo)
    (h : ListDetector.anchoredPass s level = some item) :
    item.marker.data.head?.all (fun c => !isPySpace c) = true ∧
    item.marker.data.getLast?.all (fun c => !isPySpace c) = true :=
  anchoredPass_marker_stripped s level item h

theorem claim_C5_anchored_marker_trimmed_witness :
    ("•" : String).data.head?.all (fun c => !isPySpace c) = true ∧
    ("•" : String).data.getLast?.all (fun c => !isPySpace c) = true :=
  claim_C5_anchored_marker_trimmed "• First item".data 0
    ⟨ListType.bullet, "•", "First item", 0, 0, false⟩ (by decide)

/-- Claim C6: whenever `detect_list_item` returns an item its level is the
floor division of the x-coordinate by the fixed constant 40; in particular
`detect_list_item "  3. Third item" 120` yields kind NUMBERED, content
"Third item", index 3, level 3. -/
theorem claim_C6_level_floor_div :
    (∀ (text : String) (x : Int) (item : ListItemInfo),
        ListDetector.detect_list_item text x = some item →
        item.level = Int.fdiv x 40) ∧
    ListDetector.detect_list_item "  3. Third item" 120 =
      some ⟨ListType.numbered, "3.", "Third item", 3, 3, false⟩ :=
  ⟨detect_level_eq, by decide⟩

theorem claim_C6_level_floor_div_witness :
    ListItemInfo.level ⟨ListType.numbered, "3.", "Third item", 3, 3, false⟩ =
      Int.fdiv 120 40 :=
  claim_C6_level_floor_div.1 "  3. Third item" 120 _ (by decide)

/-- Claim C7, counterexample: a negative x-coordinate produces a negative
level — `detect_list_item "1. a" (-40)` returns an item with level −1. -/
theorem claim_C7_counterexample :
    (ListDetector.detect_list_item "1. a" (-40)).map ListItemInfo.level =
      some (-1) ∧ ¬ (0 : Int) ≤ -1 := by decide

/-- Claim C7 (amended): for every nonnegative x-coordinate, every item
returned by `detect_list_item` has level ≥ 0. -/
theorem claim_C7_level_nonneg (text : String) (x : Int) (item : ListItemInfo)
    (hx : 0 ≤ x)
    (h : ListDetector.detect_list_item text x = some item) :
    0 ≤ item.level := by
  rw [detect_level_eq text x item h]
  exact Int.fdiv_nonneg hx (by norm_num)

theorem claim_C7_level_nonneg_witness :
    (0 : Int) ≤ ListItemInfo.level ⟨ListType.numbered, "1.", "a", 1, 1, false⟩ :=
  claim_C7_level_nonneg "1. a" 40 _ (by decide) (by decide)

/-- Claim C8: `is_continuation` holds exactly when the item's kind equals the
group's kind and the item's level equals the group's level; in particular it
fails when either one differs. -/
theorem claim_C8_is_continuation_iff (g : ListGroup) (item : ListItemInfo) :
    g.is_continuation item = true ↔
      (item.item_type = g.list_type ∧ item.level = g.level) := by
  simp [ListGroup.is_continuation]

/-- Claim C9: the target-language argument never alters the output of
`reconstruct_list_text`. -/
theorem claim_C9_target_lang_ignored (item : ListItemInfo)
    (translated_content : String) (l1 l2 : String) :
    ListDetector.reconstruct_list_text item translated_content l1 =
      ListDetector.reconstruct_list_text item translated_content l2 := rfl

/-! Roman-numeral round trip, settled in blocks of 500 values by kernel
evaluation and then assembled. -/

set_option maxRecDepth 40000 in
theorem romanChunk0 : ∀ m : Nat, m < 500 →
    ListDetector._roman_to_int (ListDetector._int_to_roman (m : Int)) = (m : Int) := by
  decide

set_option maxRecDepth 40000 in
theorem romanChunk1 : ∀ m : Nat, m < 500 →
    ListDetector._roman_to_int (ListDetector._int_to_roman ((500 + m : Nat) : Int)) =
      ((500 + m : Nat) : Int) := by
  decide

set_option maxRecDepth 40000 in
theorem romanChunk2 : ∀ m : Nat, m < 500 →
    ListDetector._roman_to_int (ListDetector._int_to_roman ((1000 + m : Nat) : Int)) =
      ((1000 + m : Nat) : Int) := by
  decide

set_option maxRecDepth 40000 in
theorem romanChunk3 : ∀ m : Nat, m < 500 →
    ListDetector._roman_to_int (ListDetector._int_to_roman ((1500 + m : Nat) : Int)) =
      ((1500 + m : Nat) : Int) := by
  decide

set_option maxRecDepth 40000 in
theorem romanChunk4 : ∀ m : Nat, m < 500 →
    ListDetector._roman_to_int (ListDetector._int_to_roman ((2000 + m : Nat) : Int)) =
      ((2000 + m : Nat) : Int) := by
  decide

set_option maxRecDepth 40000 in
theorem romanChunk5 : ∀ m : Nat, m < 500 →
    ListDetector._roman_to_int (ListDetector._int_to_roman ((2500 + m : Nat) : Int)) =
      ((2500 + m : Nat) : Int) := by
  decide

set_option maxRecDepth 40000 in
theorem romanChunk6 : ∀ m : Nat, m < 500 →
    ListDetector._roman_to_int (ListDetector._int_to_roman ((3000 + m : Nat) : Int)) =
      ((3000 + m : Nat) : Int) := by
  decide

set_option maxRecDepth 40000 in
theorem romanChunk7 : ∀ m : Nat, m < 500 →
    ListDetector._roman_to_int (ListDetector._int_to_roman ((3500 + m : Nat) : Int)) =
      ((3500 + m : Nat) : Int) := by
  decide

theorem roman_round_nat (m : Nat) (h : m < 4000) :
    ListDetector._roman_to_int (ListDetector._int_to_roman (m : Int)) = (m : Int) := by
  by_cases h0 : m < 500
  · exact romanChunk0 m h0
  · by_cases h1 : m < 1000
    · have := romanChunk1 (m - 500) (by omega)
      rwa [show 500 + (m - 500) = m by omega] at this
    · by_cases h2 : m < 1500
      · have := romanChunk2 (m - 1000) (by omega)
        rwa [show 1000 + (m - 1000) = m by omega] at this
      · by_cases h3 : m < 2000
        · have := romanChunk3 (m - 1500) (by omega)
          rwa [show 1500 + (m - 1500) = m by omega] at this
        · by_cases h4 : m < 2500
          · have := romanChunk4 (m - 2000) (by omega)
            rwa [show 2000 + (m - 2000) = m by omega] at this
          · by_cases h5 : m < 3000
            · have := romanChunk5 (m - 2500) (by omega)
              rwa [show 2500 + (m - 2500) = m by omega] at this
            · by_cases h6 : m < 3500
              · have := romanChunk6 (m - 3000) (by omega)
                rwa [show 3000 + (m - 3000) = m by omega] at this
              · have := romanChunk7 (m - 3500) (by omega)
                rwa [show 3500 + (m - 3500) = m by omega] at this

/-- Claim C2: for every integer n with 1 ≤ n ≤ 3999, encoding n with the
greedy subtractive `_int_to_roman` and decoding with `_roman_to_int` returns
n. -/
theorem claim_C2_roman_round_trip (n : Int) (h1 : 1 ≤ n) (h2 : n ≤ 3999) :
    ListDetector._roman_to_int (ListDetector._int_to_roman n) = n := by
  have hn : ((n.toNat : Nat) : Int) = n := by omega
  have hlt : n.toNat < 4000 := by omega
  have := roman_round_nat n.toNat hlt
  rwa [hn] at this

theorem claim_C2_roman_round_trip_witness :
    ListDetector._roman_to_int (ListDetector._int_to_roman 1987) = 1987 :=
  claim_C2_roman_round_trip 1987 (by decide) (by decide)

/-- Claim C10, counterexample: `x_coord` is a float, NaN is truthy, and
`NaN // 40` is NaN, so on any non-blank text `int(x_coord // 40)` raises
`ValueError` — `detect_list_item("1. a", float("nan"))` does not return an
item or absent. -/
theorem claim_C10_counterexample :
    ListDetector.detectF "1. a" ListDetector.PyNum.nan =
      Except.error "cannot convert float NaN to integer" := rfl

/-- Claim C10 (amended): `detect_list_item` never raises for any input string
and any finite integral x-coordinate — with the fallible operations (the
level computation on the float coordinate and `int` on the captured digits)
made explicit in `detectF`, every such input produces `Except.ok` of exactly
the detector's answer: `_roman_to_int` uses a defaulted lookup and the
fallback scan only splits the string.  For a NaN or infinite x-coordinate
and non-blank text, the level computation raises `ValueError`. -/
theorem claim_C10_finite_never_raises (text : String) (n : Int) :
    ListDetector.detectF text (ListDetector.PyNum.int n) =
      Except.ok (ListDetector.detect_list_item text n) := by
  by_cases hc : (pyStrip text.data).isEmpty = true
  · simp [ListDetector.detectF, ListDetector.detect_list_item, hc]
  · simp only [ListDetector.detectF, ListDetector.detect_list_item, hc,
      if_false, ListDetector.levelOfE, anchoredPassE_eq]
    cases ha : ListDetector.anchoredPass text.data (ListDetector.levelOf n) with
    | some item => rfl
    | none => rfl

end BabelList
